import Mathlib

/-!
Verification of the target-rendering, cluster-parameter and
alias/deprecation-registry logic of the commodore repository.

The parameter trees produced and consumed by the renderer are nested
string-keyed dictionaries (parsed YAML); they are embedded as the
inductive type `Value` below.  The implementation modules
`commodore/cluster.py`, `commodore/config.py` and
`commodore/inventory.py` are not part of the source tree that was
provided (only their unit tests are), so those operations are modelled
from the specification document, with the repository tests taken as
authoritative where they pin concrete behaviour.  The module
`commodore/component/compile.py` is present and is embedded directly.
-/

namespace Commodore

/-- A YAML-ish value: a string scalar, a boolean scalar, or a mapping
with ordered string keys.  This models the Python dictionaries that the
renderer builds and the parsed class/params files it reads. -/
inductive Value where
  | str (s : String)
  | bool (b : Bool)
  | map (entries : List (String × Value))
deriving Repr

/-- First-match association-list lookup on the entries of a mapping. -/
def lookupEntry : List (String × Value) → String → Option Value
  | [], _ => none
  | (k, v) :: rest, q => if k = q then some v else lookupEntry rest q

/-- Dictionary lookup: `v[k]` when `v` is a mapping, `none` otherwise. -/
def Value.get : Value → String → Option Value
  | .map es, k => lookupEntry es k
  | _, _ => none

/-- Chained dictionary lookup along a path of keys. -/
def Value.getPath : Value → List String → Option Value
  | v, [] => some v
  | v, k :: ks =>
    match v.get k with
    | some w => w.getPath ks
    | none => none

/-- Python-style dictionary assignment on ordered entries: replaces the
value of an existing key in place, otherwise appends the new key at the
end (insertion order is preserved, last write wins). -/
def setEntry : List (String × Value) → String → Value → List (String × Value)
  | [], k, v => [(k, v)]
  | (k0, v0) :: rest, k, v =>
    if k0 = k then (k, v) :: rest else (k0, v0) :: setEntry rest k v

/-- Python truthiness of a `Value`, as used by `dict.get` guards. -/
def Value.truthy : Value → Bool
  | .str s => !(s == "")
  | .bool b => b
  | .map es => !es.isEmpty

/-- Error taxonomy of the spec: user-facing validation errors
(`click.ClickException`) versus raw key-lookup failures (`KeyError`). -/
inductive CommodoreError where
  | validation (msg : String)
  | keyLookup (key : String)
deriving Repr, DecidableEq

/-- Modelled from the spec: the inventory layout resolver
(`commodore/inventory.py` is missing from src/).  Only the parts the
renderer consults are needed: whether a given component has a defaults
file on disk and whether it has a component class file on disk. -/
structure Inventory where
  defaultsFileExists : String → Bool
  componentFileExists : String → Bool

/-- Modelled from the spec: the bootstrap target naming convention
supplied by the inventory layout resolver; the class list of every
target starts with the class of this name under the params prefix. -/
def bootstrap_target : String := "cluster"

/-- A rendered target: the ordered class list plus the parameter tree,
as written to the target file consumed by the external compiler. -/
structure Target where
  classes : List String
  parameters : Value
deriving Repr

/-- Hyphen sanitization used for aliasing parameter keys and
back-references: every dash becomes an underscore. -/
def sanitizeName (s : String) : String :=
  String.mk (s.data.map (fun c => if c = '-' then '_' else c))

/-- The canonical component selected for a target, per spec section 4.3
step 4: the explicit `component` argument when given (trusting the
caller, per the spec design note), else the target name when it is a
known component with a component class file on disk, else none
(bootstrap-only target). -/
def canonicalComponent (inv : Inventory) (target_name : String)
    (known_components : List String) (component : Option String) :
    Option String :=
  match component with
  | some c => some c
  | none =>
    if known_components.contains target_name
        && inv.componentFileExists target_name then
      some target_name
    else
      none

/-- The ordered class list of a target, per spec section 4.3 steps 1-4:
the cluster params class first, then one defaults class per known
component whose defaults file exists (input order, silently skipping
the rest), then the shared global class, then the component class of
the canonical component when one is resolvable. -/
def targetClasses (inv : Inventory) (target_name : String)
    (known_components : List String) (component : Option String) :
    List String :=
  let classes :=
    known_components.foldl
      (fun acc c =>
        if inv.defaultsFileExists c then acc ++ ["defaults." ++ c] else acc)
      ["params." ++ bootstrap_target]
  let classes := classes ++ ["global.commodore"]
  match canonicalComponent inv target_name known_components component with
  | some c => classes ++ ["components." ++ c]
  | none => classes

/-- The parameters every target starts from: the instance name and the
kapitan target variable, both set to the target name. -/
def baseParameters (target_name : String) : List (String × Value) :=
  [("_instance", .str target_name),
   ("kapitan", .map [("vars", .map [("target", .str target_name)])])]

/-- The back-reference expression stored for an aliased component: a
reference to the instance parameter of the target, with the target
name sanitized. -/
def aliasReference (target_name : String) : Value :=
  .str ("$\x7b" ++ sanitizeName target_name ++ "\x7d")

/-- The parameter tree of a target, per spec section 4.3 step 5: the
kapitan target variable and the instance name always carry the target
name; when aliasing (explicit component differing from the target name)
a back-reference keyed by the sanitized canonical name is assigned into
the dictionary, with the target name in the reference sanitized too. -/
def targetParameters (target_name : String) (component : Option String) :
    Value :=
  match component with
  | some c =>
    if c = target_name then .map (baseParameters target_name)
    else
      .map (setEntry (baseParameters target_name) (sanitizeName c)
        (aliasReference target_name))
  | none => .map (baseParameters target_name)

/-- Modelled from the spec: `render_target` of `commodore/cluster.py`
(missing from src/), following spec section 4.3.  Builds the ordered
class list and the parameter tree for one target.  Per spec step 6 and
the error taxonomy of section 7, every validation is eager: an empty
target name or an empty component list is a validation error, and when
a canonical component is resolved its class file and its defaults file
must both be present on disk, a missing one being a validation error
naming the component; only the bootstrap target (no resolvable
canonical component) is exempt from the file requirement. -/
def render_target (inv : Inventory) (target_name : String)
    (known_components : List String) (component : Option String) :
    Except CommodoreError Target :=
  if target_name = "" then
    .error (.validation "target name must not be empty")
  else if known_components = [] then
    .error (.validation "list of known components must not be empty")
  else
    match canonicalComponent inv target_name known_components component with
    | some c =>
      if inv.componentFileExists c && inv.defaultsFileExists c then
        .ok { classes := targetClasses inv target_name known_components
                component,
              parameters := targetParameters target_name component }
      else
        .error (.validation
          ("Component " ++ c ++ " is missing its class or defaults file"))
    | none =>
      .ok { classes := targetClasses inv target_name known_components component,
            parameters := targetParameters target_name component }

/-- Inventory of the render-target tests: components foo and bar have
both a defaults file and a component class file on disk. -/
def invFooBar : Inventory where
  defaultsFileExists := fun s => s == "foo" || s == "bar"
  componentFileExists := fun s => s == "foo" || s == "bar"

/-- Inventory of the dashed-alias test: components foo-comp and bar
have both files on disk. -/
def invFooCompBar : Inventory where
  defaultsFileExists := fun s => s == "foo-comp" || s == "bar"
  componentFileExists := fun s => s == "foo-comp" || s == "bar"

/-- An inventory with no component files on disk at all. -/
def invEmpty : Inventory where
  defaultsFileExists := fun _ => false
  componentFileExists := fun _ => false

example :
    render_target invFooBar "cluster" ["foo", "bar", "baz"] none =
      .ok { classes := ["params.cluster", "defaults.foo", "defaults.bar",
                        "global.commodore"],
            parameters := .map
              [("_instance", .str "cluster"),
               ("kapitan", .map [("vars", .map [("target", .str "cluster")])])] } :=
  rfl

example :
    render_target invFooBar "foo" ["foo", "bar", "baz"] none =
      .ok { classes := ["params.cluster", "defaults.foo", "defaults.bar",
                        "global.commodore", "components.foo"],
            parameters := .map
              [("_instance", .str "foo"),
               ("kapitan", .map [("vars", .map [("target", .str "foo")])])] } :=
  rfl

example :
    (render_target invFooBar "fooer" ["foo", "bar", "baz"] (some "foo")).map
        (fun t => t.parameters.get "foo") =
      .ok (some (.str "$\x7bfooer\x7d")) :=
  rfl

theorem foldl_defaults_append (inv : Inventory) (known : List String)
    (init : List String) :
    known.foldl
        (fun acc c =>
          if inv.defaultsFileExists c then acc ++ ["defaults." ++ c] else acc)
        init =
      init ++ (known.filter (fun c => inv.defaultsFileExists c)).map
        (fun c => "defaults." ++ c) := by
  induction known generalizing init with
  | nil => simp
  | cons c rest ih =>
    by_cases h : inv.defaultsFileExists c
    · simp [List.foldl_cons, List.filter_cons, h, ih, List.append_assoc]
    · simp [List.foldl_cons, List.filter_cons, h, ih]

theorem targetClasses_characterization (inv : Inventory) (target_name : String)
    (known_components : List String) (component : Option String) :
    targetClasses inv target_name known_components component =
      ["params.cluster"]
        ++ (known_components.filter (fun c => inv.defaultsFileExists c)).map
            (fun c => "defaults." ++ c)
        ++ ["global.commodore"]
        ++ (match canonicalComponent inv target_name known_components component
            with
            | some c => ["components." ++ c]
            | none => []) := by
  have hp : "params." ++ bootstrap_target = "params.cluster" := rfl
  unfold targetClasses
  rw [foldl_defaults_append, hp]
  cases h : canonicalComponent inv target_name known_components component with
  | some c => simp [List.append_assoc]
  | none => simp [List.append_assoc]

theorem render_target_ok (inv : Inventory) (target_name : String)
    (known_components : List String) (component : Option String)
    (h1 : target_name ≠ "") (h2 : known_components ≠ [])
    (h4 : ∀ c,
      canonicalComponent inv target_name known_components component = some c →
      inv.componentFileExists c = true ∧ inv.defaultsFileExists c = true) :
    render_target inv target_name known_components component =
      .ok { classes := targetClasses inv target_name known_components component,
            parameters := targetParameters target_name component } := by
  unfold render_target
  rw [if_neg h1, if_neg h2]
  cases hres : canonicalComponent inv target_name known_components component
    with
  | none => rfl
  | some c =>
    obtain ⟨hcf, hdf⟩ := h4 c hres
    show (if (inv.componentFileExists c && inv.defaultsFileExists c) = true
        then Except.ok
          ({ classes := targetClasses inv target_name known_components
               component,
             parameters := targetParameters target_name component } : Target)
        else Except.error (CommodoreError.validation
          ("Component " ++ c ++ " is missing its class or defaults file"))) =
      Except.ok
        ({ classes := targetClasses inv target_name known_components component,
           parameters := targetParameters target_name component } : Target)
    rw [hcf, hdf]
    rfl

/-- C1 (amended): for every inventory, every non-empty list of known
components and every non-empty target name, provided the canonical
component resolved for the target (if any) has both its class file and
its defaults file on disk, render_target returns a target whose
ordered class list begins with params.cluster, then one defaults class
per known component with a defaults file on disk, in input order,
silently skipping the rest, then global.commodore, and ends with a
single components class for the canonical component when the explicit
component argument is given or when the target name is a known
component with a component file on disk; otherwise (bootstrap target)
no components class is appended. -/
theorem render_target_class_list_spec (inv : Inventory) (target_name : String)
    (known_components : List String) (component : Option String)
    (h1 : target_name ≠ "") (h2 : known_components ≠ [])
    (h4 : ∀ c,
      canonicalComponent inv target_name known_components component = some c →
      inv.componentFileExists c = true ∧ inv.defaultsFileExists c = true) :
    ∃ tgt,
      render_target inv target_name known_components component = .ok tgt ∧
      tgt.classes =
        ["params.cluster"]
          ++ (known_components.filter (fun c => inv.defaultsFileExists c)).map
              (fun c => "defaults." ++ c)
          ++ ["global.commodore"]
          ++ (match component with
              | some c => ["components." ++ c]
              | none =>
                if known_components.contains target_name
                    && inv.componentFileExists target_name then
                  ["components." ++ target_name]
                else []) := by
  refine ⟨{ classes := targetClasses inv target_name known_components component,
            parameters := targetParameters target_name component },
          render_target_ok inv target_name known_components component
            h1 h2 h4, ?_⟩
  rw [targetClasses_characterization]
  cases component with
  | some c => simp [canonicalComponent]
  | none =>
    simp only [canonicalComponent]
    by_cases hres : (known_components.contains target_name
        && inv.componentFileExists target_name) = true
    · rw [if_pos hres, if_pos hres]
    · rw [if_neg hres, if_neg hres]

/-- Witness for C1 at the inputs of the repository test
test_render_target. -/
theorem render_target_class_list_witness :
    ∃ tgt,
      render_target invFooBar "foo" ["foo", "bar", "baz"] none = .ok tgt ∧
      tgt.classes = ["params.cluster", "defaults.foo", "defaults.bar",
                     "global.commodore", "components.foo"] := by
  obtain ⟨tgt, hok, hcls⟩ :=
    render_target_class_list_spec invFooBar "foo" ["foo", "bar", "baz"] none
      (by decide) (by decide)
      (by
        intro c hc
        rw [show canonicalComponent invFooBar "foo" ["foo", "bar", "baz"] none
            = some "foo" from rfl] at hc
        injection hc with h0
        subst h0
        exact ⟨rfl, rfl⟩)
  refine ⟨tgt, hok, ?_⟩
  rw [hcls]
  rfl

/-- Counterexample for C1 as stated: the claimed class-list shape does
not hold for every target name and inventory.  With an empty target
name the renderer returns no target at all but the validation error of
spec section 4.3 step 6, and when the resolved canonical component
lacks its class or defaults file the renderer likewise fails with the
validation error of spec sections 4.3 and 7 instead of producing a
class list ending in the components class. -/
theorem render_target_empty_name_counterexample :
    render_target invFooBar "" ["foo", "bar", "baz"] none =
      .error (.validation "target name must not be empty") ∧
    render_target invEmpty "foo" ["foo"] (some "foo") =
      .error (.validation
        "Component foo is missing its class or defaults file") :=
  ⟨rfl, rfl⟩

theorem setEntry_append_of_ne (es : List (String × Value)) (k : String)
    (v : Value) (h : ∀ p ∈ es, p.1 ≠ k) :
    setEntry es k v = es ++ [(k, v)] := by
  induction es with
  | nil => rfl
  | cons e rest ih =>
    obtain ⟨k0, v0⟩ := e
    have hk0 : k0 ≠ k := h (k0, v0) (by simp)
    simp only [setEntry, if_neg hk0, List.cons_append]
    rw [ih (fun p hp => h p (by simp [hp]))]

theorem baseParameters_keys_ne (target_name k : String)
    (hki : k ≠ "_instance") (hkk : k ≠ "kapitan") :
    ∀ p ∈ baseParameters target_name, p.1 ≠ k := by
  intro p hp
  simp only [baseParameters, List.mem_cons, List.not_mem_nil, or_false]
    at hp
  rcases hp with h0 | h0
  · subst h0
    exact Ne.symm hki
  · subst h0
    exact Ne.symm hkk

theorem targetParameters_some_of_ne (target_name c : String)
    (hne : c ≠ target_name)
    (hki : sanitizeName c ≠ "_instance") (hkk : sanitizeName c ≠ "kapitan") :
    targetParameters target_name (some c) =
      .map (baseParameters target_name ++
        [(sanitizeName c, aliasReference target_name)]) := by
  show (if c = target_name then Value.map (baseParameters target_name)
        else Value.map (setEntry (baseParameters target_name)
          (sanitizeName c) (aliasReference target_name))) = _
  rw [if_neg hne]
  rw [setEntry_append_of_ne (baseParameters target_name) (sanitizeName c)
    (aliasReference target_name)
    (baseParameters_keys_ne target_name (sanitizeName c) hki hkk)]

theorem targetParameters_alias_get (target_name c : String)
    (hne : c ≠ target_name)
    (hki : sanitizeName c ≠ "_instance") (hkk : sanitizeName c ≠ "kapitan") :
    (targetParameters target_name (some c)).get (sanitizeName c) =
      some (.str ("$\x7b" ++ sanitizeName target_name ++ "\x7d")) := by
  rw [targetParameters_some_of_ne target_name c hne hki hkk]
  show lookupEntry _ _ = _
  rw [show baseParameters target_name ++
        [(sanitizeName c, aliasReference target_name)] =
      ("_instance", Value.str target_name) ::
        ("kapitan",
          Value.map [("vars", Value.map [("target", Value.str target_name)])]) ::
        [(sanitizeName c, aliasReference target_name)] from rfl]
  rw [lookupEntry, if_neg (Ne.symm hki)]
  rw [lookupEntry, if_neg (Ne.symm hkk)]
  rw [lookupEntry, if_pos rfl]
  rfl

theorem targetParameters_base_get (target_name : String)
    (component : Option String)
    (h3 : ∀ c, component = some c →
      sanitizeName c ≠ "_instance" ∧ sanitizeName c ≠ "kapitan") :
    (targetParameters target_name component).getPath
        ["kapitan", "vars", "target"] = some (.str target_name) ∧
    (targetParameters target_name component).get "_instance" =
      some (.str target_name) := by
  cases component with
  | none => exact ⟨rfl, rfl⟩
  | some c =>
    obtain ⟨hki, hkk⟩ := h3 c rfl
    by_cases hct : c = target_name
    · have hred : targetParameters target_name (some c) =
          .map (baseParameters target_name) := by
        show (if c = target_name then Value.map (baseParameters target_name)
              else Value.map (setEntry (baseParameters target_name)
                (sanitizeName c) (aliasReference target_name))) = _
        rw [if_pos hct]
      rw [hred]
      exact ⟨rfl, rfl⟩
    · rw [targetParameters_some_of_ne target_name c hct hki hkk]
      exact ⟨rfl, rfl⟩

/-- C2 (amended): whenever render_target succeeds (in particular the
resolved canonical component, if any, has its class and defaults files
on disk), the parameter tree carries kapitan.vars.target and _instance
equal to the target name, and when an explicit component c differing
from the target name is given (and the sanitized component name does
not collide with the reserved keys _instance and kapitan), the tree
carries the back-reference parameter keyed by the sanitized component
name whose value is the expression referencing the target name with
hyphens replaced by underscores. -/
theorem render_target_parameters_spec (inv : Inventory) (target_name : String)
    (known_components : List String) (component : Option String)
    (h1 : target_name ≠ "") (h2 : known_components ≠ [])
    (h3 : ∀ c, component = some c →
      sanitizeName c ≠ "_instance" ∧ sanitizeName c ≠ "kapitan")
    (h4 : ∀ c,
      canonicalComponent inv target_name known_components component = some c →
      inv.componentFileExists c = true ∧ inv.defaultsFileExists c = true) :
    ∃ tgt,
      render_target inv target_name known_components component = .ok tgt ∧
      tgt.parameters.getPath ["kapitan", "vars", "target"] =
        some (.str target_name) ∧
      tgt.parameters.get "_instance" = some (.str target_name) ∧
      (∀ c, component = some c → c ≠ target_name →
        tgt.parameters.get (sanitizeName c) =
          some (.str ("$\x7b" ++ sanitizeName target_name ++ "\x7d"))) := by
  obtain ⟨hk, hi⟩ := targetParameters_base_get target_name component h3
  refine ⟨{ classes := targetClasses inv target_name known_components component,
            parameters := targetParameters target_name component },
          render_target_ok inv target_name known_components component
            h1 h2 h4, hk, hi, ?_⟩
  intro c hc hct
  subst hc
  obtain ⟨hki, hkk⟩ := h3 c rfl
  exact targetParameters_alias_get target_name c hct hki hkk

/-- Witness for C2 at the inputs of the repository test
test_render_aliased_target. -/
theorem render_target_parameters_witness :
    ∃ tgt,
      render_target invFooBar "fooer" ["foo", "bar", "baz"] (some "foo") =
        .ok tgt ∧
      tgt.parameters.getPath ["kapitan", "vars", "target"] =
        some (.str "fooer") ∧
      tgt.parameters.get "_instance" = some (.str "fooer") ∧
      tgt.parameters.get "foo" = some (.str "$\x7bfooer\x7d") := by
  obtain ⟨tgt, hok, hk, hi, ha⟩ :=
    render_target_parameters_spec invFooBar "fooer" ["foo", "bar", "baz"]
      (some "foo") (by decide) (by decide)
      (by
        intro c hc
        injection hc with h0
        subst h0
        exact ⟨by decide, by decide⟩)
      (by
        intro c hc
        rw [show canonicalComponent invFooBar "fooer" ["foo", "bar", "baz"]
            (some "foo") = some "foo" from rfl] at hc
        injection hc with h0
        subst h0
        exact ⟨rfl, rfl⟩)
  exact ⟨tgt, hok, hk, hi, ha "foo" rfl (by decide)⟩

/-- Counterexample for C2 as stated: aliasing component foo under the
target name foo-er stores the back-reference with the target name
sanitized, so the value differs from the claimed literal expression
built from the raw target name. -/
theorem render_target_alias_value_counterexample :
    (∃ tgt,
      render_target invFooBar "foo-er" ["foo", "bar", "baz"] (some "foo") =
        .ok tgt ∧
      tgt.parameters.get "foo" = some (.str "$\x7bfoo_er\x7d")) ∧
    (("$\x7bfoo_er\x7d" == "$\x7bfoo-er\x7d") = false) := by
  refine ⟨⟨{ classes := ["params.cluster", "defaults.foo", "defaults.bar",
                         "global.commodore", "components.foo"],
             parameters := .map
               [("_instance", .str "foo-er"),
                ("kapitan", .map [("vars", .map [("target", .str "foo-er")])]),
                ("foo", .str "$\x7bfoo_er\x7d")] },
           rfl, rfl⟩, rfl⟩

/-- C3: aliasing the component foo-comp under the target foo-1 yields
the back-reference parameter under the sanitized key foo_comp (and not
under foo-comp) valued with the sanitized target reference, while the
class list keeps the unsanitized names and _instance keeps the
unsanitized target name; and sanitization removes every hyphen from
any name. -/
theorem render_target_dash_sanitization :
    (∃ tgt,
      render_target invFooCompBar "foo-1" ["foo-comp", "bar", "baz"]
          (some "foo-comp") = .ok tgt ∧
      tgt.classes = ["params.cluster", "defaults.foo-comp", "defaults.bar",
                     "global.commodore", "components.foo-comp"] ∧
      tgt.parameters.get "foo_comp" = some (.str "$\x7bfoo_1\x7d") ∧
      tgt.parameters.get "foo-comp" = none ∧
      tgt.parameters.get "_instance" = some (.str "foo-1")) ∧
    (∀ s : String, (sanitizeName s).data.contains '-' = false) := by
  constructor
  · exact ⟨_, rfl, rfl, rfl, rfl, rfl⟩
  · intro s
    show (s.data.map (fun c => if c = '-' then '_' else c)).contains '-' = false
    induction s.data with
    | nil => rfl
    | cons c rest ih =>
      rw [List.map_cons, List.contains_cons, ih, Bool.or_false]
      by_cases h : c = '-'
      · rw [if_pos h]
        rfl
      · rw [if_neg h]
        exact beq_eq_false_iff_ne.mpr (Ne.symm h)

/-- Modelled from the spec: the cluster/tenant description consumed by
render_params (the Cluster wrapper of commodore/cluster.py is missing
from src/).  It pairs the cluster response (id, display name, facts,
catalog git URL) with its tenant (id, display name); facts are an
ordered mapping of fact name to string value. -/
structure Cluster where
  id : String
  displayName : String
  tenantId : String
  tenantDisplayName : String
  facts : List (String × String)
  catalogUrl : String

/-- First-match lookup in the facts mapping. -/
def factValue : List (String × String) → String → Option String
  | [], _ => none
  | (k, v) :: rest, q => if k = q then some v else factValue rest q

/-- A required fact is bad when it is absent or the empty string. -/
def factBad (facts : List (String × String)) (f : String) : Bool :=
  match factValue facts f with
  | none => true
  | some v => v == ""

/-- The first required fact (cloud provider, then distribution) that is
absent or empty, if any. -/
def requiredFactsError (facts : List (String × String)) : Option String :=
  if factBad facts "cloud" then some "cloud"
  else if factBad facts "distribution" then some "distribution"
  else none

/-- The facts mapping embedded verbatim as a parameter tree node. -/
def factsValue (facts : List (String × String)) : Value :=
  .map (facts.map (fun p => (p.1, Value.str p.2)))

/-- The root parameter tree produced for a cluster with valid facts:
the bootstrap-target block (name, display name, catalog URL, tenant,
tenant display name, distribution), the verbatim facts, the cloud
provider and the customer name. -/
def renderedParams (cl : Cluster) : Value :=
  .map [("parameters", .map
    [(bootstrap_target, .map
        [("name", .str cl.id),
         ("display_name", .str cl.displayName),
         ("catalog_url", .str cl.catalogUrl),
         ("tenant", .str cl.tenantId),
         ("tenant_display_name", .str cl.tenantDisplayName),
         ("dist", .str ((factValue cl.facts "distribution").getD ""))]),
     ("facts", factsValue cl.facts),
     ("cloud", .map [("provider", .str ((factValue cl.facts "cloud").getD ""))]),
     ("customer", .map [("name", .str cl.tenantId)])])]

/-- Modelled from the spec: render_params of commodore/cluster.py
(missing from src/), following spec section 4.4.  Validates that the
cloud-provider fact and the distribution fact are present and
non-empty, failing with a validation error naming the first bad one;
on success produces the root parameter tree seeded from the cluster
and tenant data. -/
def render_params (cl : Cluster) : Except CommodoreError Value :=
  match requiredFactsError cl.facts with
  | some f => .error (.validation ("Required fact " ++ f ++ " is not set"))
  | none => .ok (renderedParams cl)

/-- C4: render_params fails with a validation error identifying a bad
required fact whenever the cloud fact or the distribution fact is
absent or empty; when both are present and non-empty it succeeds and
parameters.facts is the verbatim input facts mapping. -/
theorem render_params_required_facts (cl : Cluster) :
    ((factBad cl.facts "cloud" = true ∨ factBad cl.facts "distribution" = true) →
      ∃ f, (f = "cloud" ∨ f = "distribution") ∧ factBad cl.facts f = true ∧
        render_params cl =
          .error (.validation ("Required fact " ++ f ++ " is not set"))) ∧
    (factBad cl.facts "cloud" = false →
      factBad cl.facts "distribution" = false →
      ∃ v, render_params cl = .ok v ∧
        v.getPath ["parameters", "facts"] = some (factsValue cl.facts)) := by
  constructor
  · intro hbad
    by_cases hc : factBad cl.facts "cloud" = true
    · refine ⟨"cloud", Or.inl rfl, hc, ?_⟩
      unfold render_params requiredFactsError
      rw [if_pos hc]
    · have hd : factBad cl.facts "distribution" = true := by
        rcases hbad with h | h
        · exact absurd h hc
        · exact h
      refine ⟨"distribution", Or.inr rfl, hd, ?_⟩
      unfold render_params requiredFactsError
      rw [if_neg hc, if_pos hd]
  · intro hc hd
    have hnone : requiredFactsError cl.facts = none := by
      unfold requiredFactsError
      rw [hc, hd]
      rfl
    refine ⟨renderedParams cl, ?_, rfl⟩
    unfold render_params
    rw [hnone]

/-- The cluster/tenant data of the repository test fixture. -/
def clusterData : Cluster where
  id := "mycluster"
  displayName := "My Test Cluster"
  tenantId := "mytenant"
  tenantDisplayName := "My Test Tenant"
  facts := [("distribution", "rancher"), ("cloud", "cloudscale")]
  catalogUrl := "ssh://git@git.example.com/cluster-catalogs/mycluster"

/-- The test fixture with the cloud fact removed, as in
test_missing_facts. -/
def clusterDataNoCloud : Cluster where
  id := "mycluster"
  displayName := "My Test Cluster"
  tenantId := "mytenant"
  tenantDisplayName := "My Test Tenant"
  facts := [("distribution", "rancher")]
  catalogUrl := "ssh://git@git.example.com/cluster-catalogs/mycluster"

/-- Witness for C4: with the cloud fact missing render_params fails
naming cloud; with the full fixture it succeeds with verbatim facts. -/
theorem render_params_required_facts_witness :
    render_params clusterDataNoCloud =
      .error (.validation "Required fact cloud is not set") ∧
    (∃ v, render_params clusterData = .ok v ∧
      v.getPath ["parameters", "facts"] = some (factsValue clusterData.facts)) := by
  constructor
  · obtain ⟨f, hf, hbad, herr⟩ :=
      (render_params_required_facts clusterDataNoCloud).1 (Or.inl (by decide))
    rcases hf with rfl | rfl
    · exact herr
    · exact absurd hbad (by decide)
  · exact (render_params_required_facts clusterData).2 (by decide) (by decide)

/-- C5: for a cluster with valid facts, render_params produces the
bootstrap-target block carrying the cluster name, display name,
catalog URL, tenant id, tenant display name and the distribution fact,
along with parameters.cluster.name, the cloud provider fact and the
customer name. -/
theorem render_params_tree_spec (cl : Cluster) (cloudv distv : String)
    (hc : factValue cl.facts "cloud" = some cloudv)
    (hc2 : (cloudv == "") = false)
    (hd : factValue cl.facts "distribution" = some distv)
    (hd2 : (distv == "") = false) :
    ∃ v, render_params cl = .ok v ∧
      v.getPath ["parameters", "cluster", "name"] = some (.str cl.id) ∧
      v.getPath ["parameters", bootstrap_target, "name"] = some (.str cl.id) ∧
      v.getPath ["parameters", bootstrap_target, "display_name"] =
        some (.str cl.displayName) ∧
      v.getPath ["parameters", bootstrap_target, "catalog_url"] =
        some (.str cl.catalogUrl) ∧
      v.getPath ["parameters", bootstrap_target, "tenant"] =
        some (.str cl.tenantId) ∧
      v.getPath ["parameters", bootstrap_target, "tenant_display_name"] =
        some (.str cl.tenantDisplayName) ∧
      v.getPath ["parameters", bootstrap_target, "dist"] = some (.str distv) ∧
      v.getPath ["parameters", "cloud", "provider"] = some (.str cloudv) ∧
      v.getPath ["parameters", "customer", "name"] = some (.str cl.tenantId) := by
  have hcb : factBad cl.facts "cloud" = false := by
    unfold factBad
    rw [hc]
    exact hc2
  have hdb : factBad cl.facts "distribution" = false := by
    unfold factBad
    rw [hd]
    exact hd2
  have hnone : requiredFactsError cl.facts = none := by
    unfold requiredFactsError
    rw [hcb, hdb]
    rfl
  have hdv : (factValue cl.facts "distribution").getD "" = distv := by
    rw [hd]
    rfl
  have hcv : (factValue cl.facts "cloud").getD "" = cloudv := by
    rw [hc]
    rfl
  refine ⟨renderedParams cl, ?_, rfl, ?_, rfl, rfl, rfl, rfl, ?_, ?_, rfl⟩
  · unfold render_params
    rw [hnone]
  · rfl
  · rw [← hdv]
    rfl
  · rw [← hcv]
    rfl

/-- Witness for C5 at the repository test fixture. -/
theorem render_params_tree_witness :
    ∃ v, render_params clusterData = .ok v ∧
      v.getPath ["parameters", "cluster", "name"] = some (.str "mycluster") ∧
      v.getPath ["parameters", bootstrap_target, "name"] =
        some (.str "mycluster") ∧
      v.getPath ["parameters", bootstrap_target, "display_name"] =
        some (.str "My Test Cluster") ∧
      v.getPath ["parameters", bootstrap_target, "catalog_url"] =
        some (.str "ssh://git@git.example.com/cluster-catalogs/mycluster") ∧
      v.getPath ["parameters", bootstrap_target, "tenant"] =
        some (.str "mytenant") ∧
      v.getPath ["parameters", bootstrap_target, "tenant_display_name"] =
        some (.str "My Test Tenant") ∧
      v.getPath ["parameters", bootstrap_target, "dist"] =
        some (.str "rancher") ∧
      v.getPath ["parameters", "cloud", "provider"] =
        some (.str "cloudscale") ∧
      v.getPath ["parameters", "customer", "name"] = some (.str "mytenant") := by
  exact render_params_tree_spec clusterData "cloudscale" "rancher"
    rfl rfl rfl rfl

/-- Dictionary access in the style of Python subscription: a missing
key is a raw key-lookup error, not a validation error. -/
def Value.getE (v : Value) (k : String) : Except CommodoreError Value :=
  match v.get k with
  | some w => .ok w
  | none => .error (.keyLookup k)

/-- Modelled from the spec: read_cluster_and_tenant of
commodore/cluster.py (missing from src/): reads the parsed params file
and returns the pair parameters.cluster.name, parameters.cluster.tenant,
propagating a raw key-lookup error when a key along either path is
absent. -/
def read_cluster_and_tenant (fileParams : Value) :
    Except CommodoreError (Value × Value) :=
  match fileParams.getE "parameters" with
  | .error e => .error e
  | .ok ps =>
    match ps.getE "cluster" with
    | .error e => .error e
    | .ok c =>
      match c.getE "name" with
      | .error e => .error e
      | .ok n =>
        match c.getE "tenant" with
        | .error e => .error e
        | .ok t => .ok (n, t)

theorem getE_of_getPath (v w : Value) (k : String) (ks : List String)
    (h : v.getPath (k :: ks) = some w) :
    ∃ u, v.getE k = .ok u ∧ u.getPath ks = some w := by
  cases hp : v.get k with
  | none =>
    rw [Value.getPath, hp] at h
    exact Option.noConfusion h
  | some u =>
    rw [Value.getPath, hp] at h
    exact ⟨u, by rw [Value.getE, hp], h⟩

/-- C9: read_cluster_and_tenant returns the pair stored at
parameters.cluster.name and parameters.cluster.tenant of the params
file, and on the params file of the repository test
test_read_cluster_and_tenant_missing_fact (parameters present but
empty) it fails with a raw key-lookup error for the cluster key, not
with a validation error. -/
theorem read_cluster_and_tenant_spec (v n t : Value)
    (hn : v.getPath ["parameters", "cluster", "name"] = some n)
    (ht : v.getPath ["parameters", "cluster", "tenant"] = some t) :
    read_cluster_and_tenant v = .ok (n, t) ∧
    read_cluster_and_tenant (.map [("parameters", .map [])]) =
      .error (.keyLookup "cluster") := by
  refine ⟨?_, rfl⟩
  obtain ⟨ps, hps, hn1⟩ :=
    getE_of_getPath v n "parameters" ["cluster", "name"] hn
  obtain ⟨cN, hcN, hn2⟩ := getE_of_getPath ps n "cluster" ["name"] hn1
  obtain ⟨nv, hnv, hn3⟩ := getE_of_getPath cN n "name" [] hn2
  obtain ⟨ps2, hps2, ht1⟩ :=
    getE_of_getPath v t "parameters" ["cluster", "tenant"] ht
  rw [hps] at hps2
  injection hps2 with e1
  subst e1
  obtain ⟨cN2, hcN2, ht2⟩ := getE_of_getPath ps t "cluster" ["tenant"] ht1
  rw [hcN] at hcN2
  injection hcN2 with e2
  subst e2
  obtain ⟨tv, htv, ht3⟩ := getE_of_getPath cN t "tenant" [] ht2
  rw [Value.getPath] at hn3 ht3
  injection hn3 with e3
  injection ht3 with e4
  subst e3
  subst e4
  simp only [read_cluster_and_tenant, hps, hcN, hnv, htv]

/-- The parsed params file of the repository test
test_read_cluster_and_tenant. -/
def testParamsFile : Value :=
  .map [("parameters", .map [("cluster", .map
    [("name", .str "c-twilight-water-9032"),
     ("tenant", .str "t-delicate-pine-3938")])])]

/-- Witness for C9 at the params file of the repository test. -/
theorem read_cluster_and_tenant_witness :
    read_cluster_and_tenant testParamsFile =
      .ok (.str "c-twilight-water-9032", .str "t-delicate-pine-3938") :=
  (read_cluster_and_tenant_spec testParamsFile
    (.str "c-twilight-water-9032") (.str "t-delicate-pine-3938") rfl rfl).1

/-- Whether a component parameter block carries a truthy
multi_instance flag. -/
def blockMultiInstance (blk : Value) : Bool :=
  match blk.get "multi_instance" with
  | some v => v.truthy
  | none => false

/-- Whether the named component both exists in the cluster parameters
and carries a truthy multi_instance flag. -/
def multiInstanceFlag (params : Value) (component : String) : Bool :=
  match params.get component with
  | some blk => blockMultiInstance blk
  | none => false

/-- Modelled from the spec: verify_component_aliases of
commodore/config.py (missing from src/), with the checked condition
reconstructed from the repository tests in src/tests/test_config.py,
which contradict the spec prose: the tests require every registered
alias whose name differs from its canonical component to point at a
component whose parameter block carries multi_instance (namespace
plays no role), failing with a validation error naming the component
and the alias.  A component absent from the parameters is a raw
key-lookup failure, as Python dict subscription would raise. -/
def verify_component_aliases (aliases : List (String × String))
    (params : Value) : Except CommodoreError Unit :=
  match aliases with
  | [] => .ok ()
  | (a, c) :: rest =>
    if a = c then verify_component_aliases rest params
    else
      match params.get c with
      | none => .error (.keyLookup c)
      | some blk =>
        if blockMultiInstance blk then verify_component_aliases rest params
        else
          .error (.validation ("Component " ++ c ++ " with alias " ++ a ++
            " does not support instantiation."))

/-- C6 (amended): when every aliased component exists in the
parameters, verify_component_aliases succeeds exactly when every
registered alias that differs from its canonical component names a
component whose parameter block carries a truthy multi_instance flag;
the namespace key is not consulted. -/
theorem verify_component_aliases_iff (aliases : List (String × String))
    (params : Value)
    (hall : ∀ p ∈ aliases, (params.get p.2).isSome = true) :
    verify_component_aliases aliases params = .ok () ↔
      ∀ p ∈ aliases, p.1 ≠ p.2 → multiInstanceFlag params p.2 = true := by
  induction aliases with
  | nil => simp [verify_component_aliases]
  | cons pr rest ih =>
    obtain ⟨a, c⟩ := pr
    have hc : (params.get c).isSome = true := hall (a, c) (by simp)
    obtain ⟨blk, hblk⟩ := Option.isSome_iff_exists.mp hc
    have hrest := ih (fun p hp => hall p (by simp [hp]))
    have hflag : multiInstanceFlag params c = blockMultiInstance blk := by
      unfold multiInstanceFlag
      rw [hblk]
    by_cases hac : a = c
    · rw [verify_component_aliases, if_pos hac, hrest]
      constructor
      · intro h p hp
        rcases List.mem_cons.mp hp with h0 | h0
        · intro hne
          rw [h0] at hne
          exact absurd hac hne
        · exact h p h0
      · intro h p hp
        exact h p (List.mem_cons_of_mem _ hp)
    · have hstep : verify_component_aliases ((a, c) :: rest) params =
          (if blockMultiInstance blk then verify_component_aliases rest params
           else .error (.validation ("Component " ++ c ++ " with alias " ++ a ++
             " does not support instantiation."))) := by
        rw [verify_component_aliases, if_neg hac, hblk]
      rw [hstep]
      by_cases hmi : blockMultiInstance blk = true
      · rw [if_pos hmi, hrest]
        constructor
        · intro h p hp
          rcases List.mem_cons.mp hp with h0 | h0
          · intro _
            rw [h0, hflag]
            exact hmi
          · exact h p h0
        · intro h p hp
          exact h p (List.mem_cons_of_mem _ hp)
      · rw [if_neg hmi]
        constructor
        · intro h
          exact Except.noConfusion h
        · intro h
          have := h (a, c) (List.mem_cons_self _ _) hac
          rw [hflag] at this
          exact absurd this hmi

/-- The cluster parameters of the repository test
test_verify_component_aliases_error: component bar has a namespace but
no multi_instance flag. -/
def aliasErrorParams : Value :=
  .map [("bar", .map [("namespace", .str "syn-bar")])]

/-- The cluster parameters of the repository test
test_verify_component_aliases: component bar is flagged
multi_instance with a namespace. -/
def aliasOkParams : Value :=
  .map [("bar", .map [("multi_instance", .bool true),
                      ("namespace", .str "syn-bar")])]

/-- Counterexample for C6 as stated: with aliases baz -> bar and the
params of the repository error test, no component block carries
multi_instance, so the claim predicts success, but verification fails
with the validation error required by test_verify_component_aliases_error. -/
theorem verify_component_aliases_counterexample :
    multiInstanceFlag aliasErrorParams "bar" = false ∧
    verify_component_aliases [("baz", "bar")] aliasErrorParams =
      .error (.validation
        "Component bar with alias baz does not support instantiation.") :=
  ⟨rfl, rfl⟩

/-- Witness for C6 at the inputs of the repository test
test_verify_component_aliases. -/
theorem verify_component_aliases_witness :
    verify_component_aliases [("baz", "bar")] aliasOkParams = .ok () :=
  (verify_component_aliases_iff [("baz", "bar")] aliasOkParams
    (by decide)).mpr (by decide)

/-- The deprecation notice text for one deprecated component: the base
sentence, extended by the replacement hint when a replacement is named,
further extended by the free-text notice when one is provided. -/
def deprecationMessage (name : String) (cmeta : Value) : String :=
  let base := "Component " ++ name ++ " is deprecated."
  let base :=
    match cmeta.get "replaced_by" with
    | some (.str r) => base ++ " Use component " ++ r ++ " instead."
    | _ => base
  match cmeta.get "deprecation_notice" with
  | some (.str dn) => base ++ " " ++ dn
  | _ => base

/-- The notice produced for one component parameter block, if any: one
notice exactly when the metadata block marks the component
deprecated. -/
def componentDeprecationNotice (name : String) (blk : Value) :
    Option String :=
  let cmeta := (blk.get "_metadata").getD (.map [])
  match cmeta.get "deprecated" with
  | some v =>
    if v.truthy then some (deprecationMessage name cmeta) else none
  | none => none

/-- Modelled from the spec: register_component_deprecations of
commodore/config.py (missing from src/): walks the components of the
cluster parameters in order and appends one notice per component whose
metadata block marks it deprecated; the returned list is the sequence
of notices registered, in registration order. -/
def register_component_deprecations (params : List (String × Value)) :
    List String :=
  params.foldl
    (fun acc p =>
      match componentDeprecationNotice p.1 p.2 with
      | some m => acc ++ [m]
      | none => acc)
    []

theorem foldl_notice_filterMap (params : List (String × Value))
    (acc : List String) :
    params.foldl
        (fun acc p =>
          match componentDeprecationNotice p.1 p.2 with
          | some m => acc ++ [m]
          | none => acc)
        acc =
      acc ++ params.filterMap (fun p => componentDeprecationNotice p.1 p.2) := by
  induction params generalizing acc with
  | nil => simp
  | cons p rest ih =>
    cases h : componentDeprecationNotice p.1 p.2 with
    | none => simp [List.foldl_cons, List.filterMap_cons, h, ih]
    | some m =>
      simp [List.foldl_cons, List.filterMap_cons, h, ih, List.append_assoc]

/-- The parameters of the spec example: bar is deprecated with a
replacement and a free-text notice, foo carries no metadata. -/
def deprecationExampleParams : List (String × Value) :=
  [("bar", .map [("_metadata", .map
      [("deprecated", .bool true), ("replaced_by", .str "foo"),
       ("deprecation_notice", .str "See https://x")])]),
   ("foo", .map [])]

/-- Parameters where bar names a replacement but is not deprecated, as
in the second case of the repository test
test_register_component_deprecations. -/
def notDeprecatedParams : List (String × Value) :=
  [("bar", .map [("namespace", .str "syn-bar"),
     ("_metadata", .map [("deprecated", .bool false),
       ("replaced_by", .str "irrelevant")])]),
   ("foo", .map [])]

/-- C7: register_component_deprecations produces exactly one notice per
component whose metadata marks it deprecated, in input order, each
notice being the base sentence optionally extended by the replacement
hint and the free-text notice; the spec example yields exactly its one
notice, and a component naming a replacement without being deprecated
yields none. -/
theorem register_component_deprecations_spec
    (params : List (String × Value)) :
    register_component_deprecations params =
      params.filterMap (fun p => componentDeprecationNotice p.1 p.2) ∧
    register_component_deprecations deprecationExampleParams =
      ["Component bar is deprecated. Use component foo instead. See https://x"] ∧
    register_component_deprecations notDeprecatedParams = [] := by
  refine ⟨?_, rfl, rfl⟩
  unfold register_component_deprecations
  rw [foldl_notice_filterMap]
  rfl

/-- Modelled from the spec: print_deprecation_notices of
commodore/config.py (missing from src/), returned as the full text
written to standard output: nothing at all when no notices are
registered, else the header line (preceded by a blank line, as the
repository test test_print_deprecation_notices requires) followed by
one line per notice prefixed by a marker, in registration order. -/
def print_deprecation_notices (notices : List String) : String :=
  if notices.isEmpty then ""
  else
    notices.foldl (fun out n => out ++ " > " ++ n ++ "\n")
      "\nCommodore notices:\n"

/-- Concatenation of a list of strings, in order. -/
def concatStrings : List String → String
  | [] => ""
  | s :: rest => s ++ concatStrings rest

theorem foldl_print_concat (l : List String) (init : String) :
    l.foldl (fun out n => out ++ " > " ++ n ++ "\n") init =
      init ++ concatStrings (l.map (fun n => " > " ++ n ++ "\n")) := by
  induction l generalizing init with
  | nil => simp [concatStrings]
  | cons s rest ih =>
    rw [List.foldl_cons, ih, List.map_cons, concatStrings]
    simp [String.append_assoc]

/-- C8: print_deprecation_notices prints nothing at all on an empty
notice list; on a non-empty list it prints the fixed header line
followed by one marker-prefixed line per notice, in registration
order. -/
theorem print_deprecation_notices_spec (notices : List String) :
    print_deprecation_notices [] = "" ∧
    (notices ≠ [] →
      print_deprecation_notices notices =
        "\nCommodore notices:\n" ++
          concatStrings (notices.map (fun n => " > " ++ n ++ "\n"))) := by
  refine ⟨rfl, ?_⟩
  intro h
  cases notices with
  | nil => exact absurd rfl h
  | cons s rest =>
    show (s :: rest).foldl (fun out n => out ++ " > " ++ n ++ "\n")
        "\nCommodore notices:\n" = _
    rw [foldl_print_concat]

/-- Witness for C8 at the notices of the repository test
test_print_deprecation_notices. -/
theorem print_deprecation_notices_witness :
    print_deprecation_notices ["test 1", "test 2"] =
      "\nCommodore notices:\n > test 1\n > test 2\n" := by
  have h := (print_deprecation_notices_spec ["test 1", "test 2"]).2
    (by decide)
  rw [h]
  rfl

/-- Whether the second list starts with the first. -/
def listStartsWith : List Char → List Char → Bool
  | [], _ => true
  | _ :: _, [] => false
  | p :: ps, c :: cs => p == c && listStartsWith ps cs

/-- Left-to-right deletion of every non-overlapping occurrence of the
pattern p0 :: prest, as Python str.replace with an empty replacement
performs it.  The fuel argument only makes the recursion structural;
it never runs out when it starts at the length of the scanned list,
since every step consumes at least one character and one unit of
fuel. -/
def deleteAllAux (p0 : Char) (prest : List Char) :
    Nat → List Char → List Char
  | 0, s => s
  | _ + 1, [] => []
  | fuel + 1, c :: rest =>
    if p0 == c && listStartsWith prest rest then
      deleteAllAux p0 prest fuel (rest.drop prest.length)
    else
      c :: deleteAllAux p0 prest fuel rest

/-- Python str.replace with an empty replacement: deletes every
non-overlapping occurrence of the pattern, scanning left to right; an
empty pattern deletes nothing here (the source only uses a fixed
non-empty pattern). -/
def stringDeleteAll (s pat : String) : String :=
  match pat.data with
  | [] => s
  | p0 :: prest => String.mk (deleteAllAux p0 prest s.data.length s.data)

/-- From src/commodore/component/compile.py: the component name is the
final path segment without extension, with every occurrence of the
substring component- deleted (str.replace deletes all occurrences, not
only a leading prefix, despite the adjacent source comment). -/
def component_name_of_stem (stem : String) : String :=
  stringDeleteAll stem "component-"

/-- From src/commodore/component/compile.py: the ordered class list
written to the test target file for single-component compilation: the
fake params class, the defaults and components classes of the derived
component name, then one class per value file stem. -/
def fakeTargetClasses (component_name : String)
    (value_class_stems : List String) : List String :=
  ["fake", "defaults." ++ component_name, "components." ++ component_name]
    ++ value_class_stems

/-- From src/commodore/component/compile.py: the target list passed to
the external compiler invocation. -/
def kapitanCompileTargets (component_name : String) : List String :=
  [component_name]

/-- From src/commodore/component/compile.py: the path segments under
the output directory reported as the compiled component location. -/
def compiledOutputSegments (component_name : String) : List String :=
  ["compiled", component_name]

theorem deleteAllAux_fuel (p0 : Char) (prest : List Char) :
    ∀ (f1 : Nat) (s : List Char) (f2 : Nat), s.length ≤ f1 →
      s.length ≤ f2 →
      deleteAllAux p0 prest f1 s = deleteAllAux p0 prest f2 s := by
  intro f1
  induction f1 with
  | zero =>
    intro s f2 h1 _
    have hs : s = [] := List.eq_nil_of_length_eq_zero (Nat.le_zero.mp h1)
    subst hs
    cases f2 with
    | zero => rfl
    | succ g2 => rfl
  | succ g1 ih =>
    intro s f2 h1 h2
    cases s with
    | nil =>
      cases f2 with
      | zero => rfl
      | succ g2 => rfl
    | cons c rest =>
      cases f2 with
      | zero =>
        exact absurd h2 (by simp)
      | succ g2 =>
        have h1r : rest.length ≤ g1 := by
          simp only [List.length_cons] at h1
          omega
        have h2r : rest.length ≤ g2 := by
          simp only [List.length_cons] at h2
          omega
        rw [deleteAllAux, deleteAllAux]
        by_cases hm : (p0 == c && listStartsWith prest rest) = true
        · rw [if_pos hm, if_pos hm]
          exact ih _ _ (by rw [List.length_drop]; omega)
            (by rw [List.length_drop]; omega)
        · rw [if_neg hm, if_neg hm, ih rest g2 h1r h2r]

theorem listStartsWith_refl_append (p tail : List Char) :
    listStartsWith p (p ++ tail) = true := by
  induction p with
  | nil => rfl
  | cons a rest ih => simp [listStartsWith, ih]

theorem component_name_prefix_delete (s : String) :
    component_name_of_stem ("component-" ++ s) = component_name_of_stem s := by
  show String.mk (deleteAllAux 'c' "omponent-".data
      ("component-" ++ s).data.length ("component-" ++ s).data) =
    String.mk (deleteAllAux 'c' "omponent-".data s.data.length s.data)
  rw [String.data_append]
  rw [show String.data "component-" = 'c' :: ("omponent-".data) from rfl]
  rw [List.cons_append, List.length_cons]
  rw [deleteAllAux]
  have hcond : ('c' == 'c'
      && listStartsWith "omponent-".data ("omponent-".data ++ s.data)) =
      true := by
    rw [listStartsWith_refl_append]
    rfl
  rw [if_pos hcond, List.drop_left]
  exact congrArg String.mk
    (deleteAllAux_fuel 'c' "omponent-".data _ s.data _
      (by rw [List.length_append]; omega) (le_refl _))

/-- C10 (amended): the component name is derived from the path stem by
deleting every occurrence of the substring component-, not only a
leading prefix: component-foo yields foo, foo-component-bar yields
foo-bar, a leading occurrence is always deleted, and the derived name
is what the defaults and components classes, the compile target list
and the reported output path are built from. -/
theorem compile_component_name_spec :
    component_name_of_stem "component-foo" = "foo" ∧
    component_name_of_stem "foo-component-bar" = "foo-bar" ∧
    component_name_of_stem "component-component-foo" = "foo" ∧
    (∀ s : String,
      component_name_of_stem ("component-" ++ s) = component_name_of_stem s) ∧
    (∀ stem : String, ∀ vs : List String,
      fakeTargetClasses (component_name_of_stem stem) vs =
        ["fake", "defaults." ++ component_name_of_stem stem,
         "components." ++ component_name_of_stem stem] ++ vs ∧
      kapitanCompileTargets (component_name_of_stem stem) =
        [component_name_of_stem stem] ∧
      compiledOutputSegments (component_name_of_stem stem) =
        ["compiled", component_name_of_stem stem]) :=
  ⟨rfl, rfl, rfl, component_name_prefix_delete,
   fun _ _ => ⟨rfl, rfl, rfl⟩⟩

/-- Counterexample for C10 as stated: the directory stem
foo-component-bar yields the component name foo-bar, not the claimed
foobar; the hyphen before the deleted occurrence survives. -/
theorem component_name_counterexample :
    component_name_of_stem "foo-component-bar" = "foo-bar" ∧
    (("foo-bar" == "foobar") = false) :=
  ⟨rfl, rfl⟩

end Commodore
